import Mathlib

/-!
Shallow embedding of `src/main.cpp` of carpet_hdf5_to_openvdb.

The program opens an HDF5 file and, in its `writevdb` path, converts one
dataset into one OpenVDB grid: it validates the element class, rank, and
element count of the dataset, optionally transforms the value buffer
(normalize to [0,1] plus offset, or uniform additive offset), builds a
linear grid transform from the `origin` and `delta` attributes of the
dataset, and scatters the buffer into the grid with three nested loops
over the selection bounds of the dataset.

Modelling decisions:
 - `float`/`double` values are modelled as `ℚ` (exact arithmetic).  The
   one place where IEEE semantics differ from ℚ is division by zero in
   the normalization pass (`(v - min) / (max - min)` with `max = min`),
   which yields NaN in C++ and `0` in ℚ; this is called out where used.
 - `hsize_t` selection bounds are modelled as `ℕ`.  `getSelectBounds`
   after `selectAll` always yields `start ≤ end` componentwise, so the
   unsigned wrap-around of `end - start` for `end < start` is unreachable
   and not modelled; theorems that need it carry `start ≤ end` as an
   explicit hypothesis.
 - The HDF5 attribute fetches of `origin` and `delta` (main.cpp 248-249,
   through `AttrGetter` at 88-105) can throw: the size-mismatch error of
   lines 93-97, or an H5 exception escaping `openAttribute`/`read`.  Each
   fetch is modelled by its outcome at the reader boundary: a field
   `originFetchErr` / `deltaFetchErr` holding `some e` when the fetch
   throws the message `e` (then `writevdb` aborts with `e` before
   building the transform) and `none` when it succeeds, in which case the
   `origin` / `delta` triples hold the three doubles read (carpet
   attributes are 3-vectors; an out-of-range vector access is undefined
   behavior and outside the modelled boundary).  H5-internal failures of
   the other opaque calls (`openDataSet`, dataset `read`, the file write)
   stay outside the model.  In the source the fetch happens after the
   value transform and grid allocation but before the scatter; since only
   the final outcome is observable, testing it right after validation is
   equivalent.
 - Exceptions (`throw std::runtime_error`) are modelled as
   `Except String`; an uncaught exception aborts the whole run.
 - The OpenVDB grid is modelled by its transform matrix (the 16 entries
   of the row-major `Mat4R` passed to `createLinearTransform`), its name
   (`none`: the source never calls `grid->setName`; the naming code at
   main.cpp lines 236-243 is commented out), and the ordered sequence of
   `accessor.setValue` writes; voxel lookup is the left fold of those
   writes over the empty grid.
-/

deriving instance DecidableEq for Except

/-- The HDF5 datatype class of a dataset (`H5T_class_t`), restricted to the
classes the program distinguishes. -/
inductive H5TClass where
  | integer
  | float
  | string
  | other
  deriving DecidableEq, Repr

/-- One HDF5 dataset as `writevdb` sees it: name, datatype class, dataspace
rank, selection bounds after `selectAll` (per axis, inclusive), the raw
value buffer (`getInMemDataSize / sizeof(float)` elements), and the
`origin` and `delta` attribute fetches.  `originFetchErr` / `deltaFetchErr`
is `some e` when the `AttrGetter` fetch of that attribute throws the
message `e` (the size-mismatch error of main.cpp 93-97, or an H5 exception
escaping `openAttribute`/`read`); it is `none` when the fetch succeeds, and
then `origin` / `delta` hold the three doubles read. -/
structure Block where
  name : String
  typeClass : H5TClass
  rank : Nat
  start0 : Nat
  start1 : Nat
  start2 : Nat
  end0 : Nat
  end1 : Nat
  end2 : Nat
  values : List ℚ
  originFetchErr : Option String
  deltaFetchErr : Option String
  origin : ℚ × ℚ × ℚ
  delta : ℚ × ℚ × ℚ
  deriving DecidableEq, Repr

/-- `(end[0]-start[0]+1) * (end[1]-start[1]+1) * (end[2]-start[2]+1)` from
main.cpp line 196 (ℕ subtraction; bounds from `getSelectBounds` satisfy
`start ≤ end`, where the two agree with `hsize_t` arithmetic). -/
def computedSize (b : Block) : Nat :=
  (b.end0 - b.start0 + 1) * (b.end1 - b.start1 + 1) * (b.end2 - b.start2 + 1)

/-- `std::min(a, b)`: `b < a ? b : a`. -/
def stdMin (a b : ℚ) : ℚ := if b < a then b else a

/-- `std::max(a, b)`: `a < b ? b : a`. -/
def stdMax (a b : ℚ) : ℚ := if a < b then b else a

/-- The normalization pass of main.cpp lines 212-222: fold `std::min` /
`std::max` over the whole buffer starting from `values[0]`, then remap
every value to `(v - min) / (max - min) + offset`. -/
def normalizeValues (offset : ℚ) (values : List ℚ) : List ℚ :=
  let mn := values.foldl (fun m v => stdMin v m) (values.headD 0)
  let mx := values.foldl (fun m v => stdMax v m) (values.headD 0)
  values.map (fun v => (v - mn) / (mx - mn) + offset)

/-- The value transform of main.cpp lines 211-225: normalize when requested,
otherwise add `offset` uniformly when it is nonzero, otherwise leave the
buffer untouched. -/
def transformValues (normalize : Bool) (offset : ℚ) (values : List ℚ) : List ℚ :=
  if normalize then normalizeValues offset values
  else if offset ≠ 0 then values.map (fun v => v + offset)
  else values

/-- The row-major 4×4 matrix handed to
`openvdb::math::Transform::createLinearTransform` (main.cpp lines 251-256). -/
structure Mat4 where
  m00 : ℚ
  m01 : ℚ
  m02 : ℚ
  m03 : ℚ
  m10 : ℚ
  m11 : ℚ
  m12 : ℚ
  m13 : ℚ
  m20 : ℚ
  m21 : ℚ
  m22 : ℚ
  m23 : ℚ
  m30 : ℚ
  m31 : ℚ
  m32 : ℚ
  m33 : ℚ
  deriving DecidableEq, Repr

/-- An OpenVDB float grid as the program leaves it: transform matrix, name
(`none` — `setName` is never called), and the ordered list of
`accessor.setValue` writes. -/
structure VDBGrid where
  name : Option String
  transform : Mat4
  writes : List ((Nat × Nat × Nat) × ℚ)
  deriving DecidableEq, Repr

/-- The coordinates visited by the scatter loops of main.cpp lines 263-268,
in loop order: `x` outermost (`start[0]..end[0]`), then `y`, then `z`
innermost. -/
def scatterCoords (b : Block) : List (Nat × Nat × Nat) :=
  (List.range (b.end0 + 1 - b.start0)).flatMap fun i =>
    (List.range (b.end1 + 1 - b.start1)).flatMap fun j =>
      (List.range (b.end2 + 1 - b.start2)).map fun k =>
        (b.start0 + i, b.start1 + j, b.start2 + k)

/-- The voxel state reached by a sequence of `accessor.setValue` writes
starting from the state `g`; a later write to the same coordinate wins. -/
def applyWrites (ws : List ((Nat × Nat × Nat) × ℚ)) (g : (Nat × Nat × Nat) → Option ℚ) :
    (Nat × Nat × Nat) → Option ℚ :=
  ws.foldl (fun f w => fun c' => if c' = w.1 then some w.2 else f c') g

/-- Voxel lookup: the grid state is the left fold of the `setValue` writes
over the everywhere-empty grid. -/
def gridAt (g : VDBGrid) (c : Nat × Nat × Nat) : Option ℚ :=
  applyWrites g.writes (fun _ => none) c

/-- `writevdb` (main.cpp lines 180-283) up to the final file write: validate
the dataset, transform the values, fetch `origin` and `delta` (the `origin`
fetch runs first and a thrown fetch error aborts the call), build the grid
transform from them, and scatter the buffer.  The buffer pointer advances
once per innermost iteration, so write `m` in loop order receives buffer
element `m`. -/
def writevdb (b : Block) (normalize : Bool) (offset : ℚ) : Except String VDBGrid :=
  if b.typeClass ≠ H5TClass.float then
    .error "OpenVDB output only supports float grids"
  else if b.rank ≠ 3 then
    .error "OpenVDB output only supports 3D grids"
  else if b.values.length = 0 then
    .error "Empty grid cannot be used!"
  else if b.values.length ≠ computedSize b then
    .error "Something wrong with the data count"
  else
    match b.originFetchErr, b.deltaFetchErr with
    | some e, _ => .error e
    | none, some e => .error e
    | none, none =>
        .ok { name := none
              transform :=
                { m00 := b.delta.1, m01 := 0, m02 := 0, m03 := 0
                  m10 := 0, m11 := b.delta.2.1, m12 := 0, m13 := 0
                  m20 := 0, m21 := 0, m22 := b.delta.2.2, m23 := 0
                  m30 := b.origin.1, m31 := b.origin.2.1, m32 := b.origin.2.2, m33 := 1 }
              writes := (scatterCoords b).zip (transformValues normalize offset b.values) }

/-- The `--writevdb_all` loop of `main` (main.cpp lines 316-324): call
`writevdb` for each dataset of the file in order, each call producing one
grid written to its own file; the first uncaught exception aborts the run. -/
def writevdbAll : List Block → Bool → ℚ → Except String (List VDBGrid)
  | [], _, _ => .ok []
  | b :: bs, normalize, offset => do
      let g ← writevdb b normalize offset
      let gs ← writevdbAll bs normalize offset
      .ok (g :: gs)

/-- Iteration count of the outermost scatter loop (`x` axis),
`end[0] + 1 - start[0]`. -/
def dim0 (b : Block) : Nat := b.end0 + 1 - b.start0

/-- Iteration count of the middle scatter loop (`y` axis). -/
def dim1 (b : Block) : Nat := b.end1 + 1 - b.start1

/-- Iteration count of the innermost scatter loop (`z` axis). -/
def dim2 (b : Block) : Nat := b.end2 + 1 - b.start2

lemma transformValues_length (normalize : Bool) (offset : ℚ) (values : List ℚ) :
    (transformValues normalize offset values).length = values.length := by
  unfold transformValues normalizeValues
  split
  · simp
  · split <;> simp

lemma scatterCoords_length (b : Block) :
    (scatterCoords b).length = dim0 b * (dim1 b * dim2 b) := by
  unfold scatterCoords dim0 dim1 dim2
  simp [List.length_flatMap, Function.comp_def, List.map_const', mul_comm]

lemma getElem?_flatMap_const {α β : Type} (l : List α) (f : α → List β) (L : Nat)
    (hL : 0 < L) (hf : ∀ a ∈ l, (f a).length = L) (m : Nat) :
    (l.flatMap f)[m]? = l[m / L]?.bind fun a => (f a)[m % L]? := by
  induction l generalizing m with
  | nil => simp
  | cons a l ih =>
    have ha : (f a).length = L := hf a (List.mem_cons_self a l)
    rw [List.flatMap_cons, List.getElem?_append]
    by_cases hm : m < L
    · rw [if_pos (by omega), Nat.div_eq_of_lt hm, Nat.mod_eq_of_lt hm]
      simp
    · push_neg at hm
      rw [if_neg (by omega), ha,
        ih (fun a' ha' => hf a' (List.mem_cons_of_mem _ ha')) (m - L)]
      obtain ⟨r, rfl⟩ := Nat.exists_eq_add_of_le hm
      rw [Nat.add_sub_cancel_left, Nat.add_div_left r hL, Nat.add_mod_left,
        List.getElem?_cons_succ]

lemma scatterCoords_eq (b : Block) :
    scatterCoords b =
      (List.range (dim0 b)).flatMap fun i =>
        (List.range (dim1 b)).flatMap fun j =>
          (List.range (dim2 b)).map fun k =>
            (b.start0 + i, b.start1 + j, b.start2 + k) := rfl

lemma scatterCoords_getElem_encode (b : Block) (x y z : Nat)
    (hx : x < dim0 b) (hy : y < dim1 b) (hz : z < dim2 b) :
    (scatterCoords b)[x * (dim1 b * dim2 b) + y * dim2 b + z]? =
      some (b.start0 + x, b.start1 + y, b.start2 + z) := by
  have h2 : 0 < dim2 b := by omega
  have h12 : 0 < dim1 b * dim2 b := Nat.mul_pos (by omega) h2
  have hlt : y * dim2 b + z < dim1 b * dim2 b := by
    calc y * dim2 b + z < y * dim2 b + dim2 b := by omega
      _ = (y + 1) * dim2 b := by ring
      _ ≤ dim1 b * dim2 b := Nat.mul_le_mul_right _ (by omega)
  have houter : ∀ i ∈ List.range (dim0 b),
      ((List.range (dim1 b)).flatMap fun j => (List.range (dim2 b)).map fun k =>
        (b.start0 + i, b.start1 + j, b.start2 + k)).length = dim1 b * dim2 b := by
    intro i _
    simp [List.length_flatMap, Function.comp_def, List.map_const', mul_comm]
  rw [scatterCoords_eq, getElem?_flatMap_const _ _ (dim1 b * dim2 b) h12 houter]
  have hdiv : (x * (dim1 b * dim2 b) + y * dim2 b + z) / (dim1 b * dim2 b) = x := by
    rw [show x * (dim1 b * dim2 b) + y * dim2 b + z
        = (y * dim2 b + z) + (dim1 b * dim2 b) * x by ring,
      Nat.add_mul_div_left _ _ h12, Nat.div_eq_of_lt hlt, Nat.zero_add]
  have hmod : (x * (dim1 b * dim2 b) + y * dim2 b + z) % (dim1 b * dim2 b)
      = y * dim2 b + z := by
    rw [show x * (dim1 b * dim2 b) + y * dim2 b + z
        = (y * dim2 b + z) + (dim1 b * dim2 b) * x by ring,
      Nat.add_mul_mod_self_left, Nat.mod_eq_of_lt hlt]
  rw [hdiv, hmod, List.getElem?_range hx, Option.some_bind,
    getElem?_flatMap_const _ _ (dim2 b) h2 (by intro j _; simp)]
  have hdiv2 : (y * dim2 b + z) / dim2 b = y := by
    rw [show y * dim2 b + z = z + dim2 b * y by ring, Nat.add_mul_div_left _ _ h2,
      Nat.div_eq_of_lt hz, Nat.zero_add]
  have hmod2 : (y * dim2 b + z) % dim2 b = z := by
    rw [show y * dim2 b + z = z + dim2 b * y by ring, Nat.add_mul_mod_self_left,
      Nat.mod_eq_of_lt hz]
  rw [hdiv2, hmod2, List.getElem?_range hy, Option.some_bind, List.getElem?_map,
    List.getElem?_range hz, Option.map_some']

lemma scatterCoords_nodup (b : Block) : (scatterCoords b).Nodup := by
  rw [scatterCoords_eq, List.nodup_flatMap]
  constructor
  · intro i _
    rw [List.nodup_flatMap]
    constructor
    · intro j _
      exact (List.nodup_range _).map (fun k k' h => by
        simpa using congrArg (fun p => p.2.2) h)
    · refine (List.pairwise_lt_range _).imp ?_
      intro j j' hjj a ha ha'
      simp only [List.mem_map, List.mem_range] at ha ha'
      obtain ⟨k, _, rfl⟩ := ha
      obtain ⟨k', _, hk'⟩ := ha'
      have : b.start1 + j' = b.start1 + j := congrArg (fun p => p.2.1) hk'
      omega
  · refine (List.pairwise_lt_range _).imp ?_
    intro i i' hii a ha ha'
    simp only [List.mem_flatMap, List.mem_map, List.mem_range] at ha ha'
    obtain ⟨j, _, k, _, rfl⟩ := ha
    obtain ⟨j', _, k', _, hk'⟩ := ha'
    have : b.start0 + i' = b.start0 + i := congrArg (fun p => p.1) hk'
    omega

lemma applyWrites_cons (w : (Nat × Nat × Nat) × ℚ) (ws : List ((Nat × Nat × Nat) × ℚ))
    (g : (Nat × Nat × Nat) → Option ℚ) :
    applyWrites (w :: ws) g
      = applyWrites ws (fun c' => if c' = w.1 then some w.2 else g c') := rfl

lemma applyWrites_not_mem (ws : List ((Nat × Nat × Nat) × ℚ))
    (g : (Nat × Nat × Nat) → Option ℚ) (c : Nat × Nat × Nat)
    (hc : ∀ w ∈ ws, c ≠ w.1) :
    applyWrites ws g c = g c := by
  induction ws generalizing g with
  | nil => rfl
  | cons w ws ih =>
    rw [applyWrites_cons, ih _ (fun w' hw' => hc w' (List.mem_cons_of_mem _ hw'))]
    simp [hc w (List.mem_cons_self _ _)]

lemma applyWrites_zip_get (coords : List (Nat × Nat × Nat)) (vals : List ℚ)
    (g : (Nat × Nat × Nat) → Option ℚ) (m : Nat) (hnd : coords.Nodup)
    (hm : m < coords.length) (hm' : m < vals.length) :
    applyWrites (coords.zip vals) g (coords.get ⟨m, hm⟩)
      = some (vals.get ⟨m, hm'⟩) := by
  induction coords generalizing vals g m with
  | nil => exact absurd hm (by simp)
  | cons c cs ih =>
    cases vals with
    | nil => exact absurd hm' (by simp)
    | cons v vs =>
      cases m with
      | zero =>
        have hc : ∀ w ∈ cs.zip vs, c ≠ w.1 := by
          intro w hw heq
          obtain ⟨a, b⟩ := w
          exact (List.nodup_cons.mp hnd).1 (heq ▸ (List.of_mem_zip hw).1)
        rw [List.zip_cons_cons, applyWrites_cons]
        show applyWrites (cs.zip vs) (fun c' => if c' = c then some v else g c') c = some v
        rw [applyWrites_not_mem _ _ _ hc]
        simp
      | succ m =>
        rw [List.zip_cons_cons, applyWrites_cons]
        exact ih vs _ m (List.nodup_cons.mp hnd).2 (by simpa using hm) (by simpa using hm')

lemma writevdb_ok (b : Block) (normalize : Bool) (offset : ℚ) (g : VDBGrid)
    (h : writevdb b normalize offset = .ok g) :
    b.typeClass = H5TClass.float ∧ b.rank = 3 ∧ b.values.length ≠ 0 ∧
      b.values.length = computedSize b ∧ g.name = none ∧
      g.transform =
        { m00 := b.delta.1, m01 := 0, m02 := 0, m03 := 0
          m10 := 0, m11 := b.delta.2.1, m12 := 0, m13 := 0
          m20 := 0, m21 := 0, m22 := b.delta.2.2, m23 := 0
          m30 := b.origin.1, m31 := b.origin.2.1, m32 := b.origin.2.2, m33 := 1 } ∧
      g.writes = (scatterCoords b).zip (transformValues normalize offset b.values) ∧
      b.originFetchErr = none ∧ b.deltaFetchErr = none := by
  unfold writevdb at h
  split at h
  next => exact Except.noConfusion h
  next hty =>
    split at h
    next => exact Except.noConfusion h
    next hrk =>
      split at h
      next => exact Except.noConfusion h
      next hcnt =>
        split at h
        next => exact Except.noConfusion h
        next hsz =>
          push_neg at hty hrk hsz
          split at h
          next => exact Except.noConfusion h
          next => exact Except.noConfusion h
          next ho hd =>
            injection h with h
            exact ⟨hty, hrk, hcnt, hsz, by rw [← h], by rw [← h], by rw [← h], ho, hd⟩

lemma mixedRadix_lt (n0 n1 n2 x y z : Nat) (hx : x < n0) (hy : y < n1) (hz : z < n2) :
    x * (n1 * n2) + y * n2 + z < n0 * (n1 * n2) := by
  have h1 : y * n2 + z < n1 * n2 := by
    calc y * n2 + z < y * n2 + n2 := by omega
      _ = (y + 1) * n2 := by ring
      _ ≤ n1 * n2 := Nat.mul_le_mul_right _ (by omega)
  calc x * (n1 * n2) + y * n2 + z < x * (n1 * n2) + n1 * n2 := by omega
    _ = (x + 1) * (n1 * n2) := by ring
    _ ≤ n0 * (n1 * n2) := Nat.mul_le_mul_right _ (by omega)

lemma computedSize_eq_dims (b : Block) (hs0 : b.start0 ≤ b.end0)
    (hs1 : b.start1 ≤ b.end1) (hs2 : b.start2 ≤ b.end2) :
    computedSize b = dim0 b * (dim1 b * dim2 b) := by
  unfold computedSize dim0 dim1 dim2
  have e0 : b.end0 - b.start0 + 1 = b.end0 + 1 - b.start0 := by omega
  have e1 : b.end1 - b.start1 + 1 = b.end1 + 1 - b.start1 := by omega
  have e2 : b.end2 - b.start2 + 1 = b.end2 + 1 - b.start2 := by omega
  rw [e0, e1, e2, mul_assoc]

lemma gridAt_writevdb (b : Block) (normalize : Bool) (offset : ℚ) (g : VDBGrid)
    (h : writevdb b normalize offset = .ok g)
    (hs0 : b.start0 ≤ b.end0) (hs1 : b.start1 ≤ b.end1) (hs2 : b.start2 ≤ b.end2)
    (x y z : Nat) (hx : x < dim0 b) (hy : y < dim1 b) (hz : z < dim2 b) :
    gridAt g (b.start0 + x, b.start1 + y, b.start2 + z)
      = (transformValues normalize offset b.values)[x * (dim1 b * dim2 b) + y * dim2 b + z]? := by
  obtain ⟨-, -, -, hsz, -, -, hw, -, -⟩ := writevdb_ok b normalize offset g h
  have hmlt : x * (dim1 b * dim2 b) + y * dim2 b + z < dim0 b * (dim1 b * dim2 b) :=
    mixedRadix_lt _ _ _ _ _ _ hx hy hz
  have hmc : x * (dim1 b * dim2 b) + y * dim2 b + z < (scatterCoords b).length := by
    rw [scatterCoords_length]; exact hmlt
  have hmv : x * (dim1 b * dim2 b) + y * dim2 b + z
      < (transformValues normalize offset b.values).length := by
    rw [transformValues_length, hsz, computedSize_eq_dims b hs0 hs1 hs2]; exact hmlt
  have hcoord : (scatterCoords b).get ⟨_, hmc⟩ = (b.start0 + x, b.start1 + y, b.start2 + z) := by
    have he := scatterCoords_getElem_encode b x y z hx hy hz
    rw [List.getElem?_eq_getElem hmc] at he
    simpa using he
  rw [gridAt, hw, ← hcoord,
    applyWrites_zip_get _ _ _ _ (scatterCoords_nodup b) hmc hmv,
    List.getElem?_eq_getElem hmv]
  simp

lemma stdMin_eq_min (a b : ℚ) : stdMin a b = min a b := by
  unfold stdMin
  rcases lt_or_le b a with h | h
  · rw [if_pos h, min_eq_right h.le]
  · rw [if_neg (not_lt.mpr h), min_eq_left h]

lemma stdMax_eq_max (a b : ℚ) : stdMax a b = max a b := by
  unfold stdMax
  rcases lt_or_le a b with h | h
  · rw [if_pos h, max_eq_right h.le]
  · rw [if_neg (not_lt.mpr h), max_eq_left h]

lemma foldl_flip_min (l : List ℚ) (a : ℚ) :
    l.foldl (fun m v => stdMin v m) a = l.foldl min a := by
  induction l generalizing a with
  | nil => rfl
  | cons v l ih =>
    rw [List.foldl_cons, List.foldl_cons, ih, stdMin_eq_min, min_comm v a]

lemma foldl_flip_max (l : List ℚ) (a : ℚ) :
    l.foldl (fun m v => stdMax v m) a = l.foldl max a := by
  induction l generalizing a with
  | nil => rfl
  | cons v l ih =>
    rw [List.foldl_cons, List.foldl_cons, ih, stdMax_eq_max, max_comm v a]

lemma normalizeValues_eq (offset : ℚ) (values : List ℚ) (mn mx : ℚ)
    (hmn : values.min? = some mn) (hmx : values.max? = some mx) :
    normalizeValues offset values
      = values.map (fun v => (v - mn) / (mx - mn) + offset) := by
  cases values with
  | nil => simp [List.min?] at hmn
  | cons v vs =>
    have hmn' : vs.foldl min v = mn := by
      simpa [List.min?] using hmn
    have hmx' : vs.foldl max v = mx := by
      simpa [List.max?] using hmx
    have hA : (v :: vs).foldl (fun m w => stdMin w m) v = vs.foldl min v := by
      rw [List.foldl_cons, stdMin_eq_min, min_self, foldl_flip_min]
    have hB : (v :: vs).foldl (fun m w => stdMax w m) v = vs.foldl max v := by
      rw [List.foldl_cons, stdMax_eq_max, max_self, foldl_flip_max]
    unfold normalizeValues
    simp only [List.headD_cons, hA, hB, hmn', hmx']

lemma writes_map_snd (b : Block) (normalize : Bool) (offset : ℚ) (g : VDBGrid)
    (h : writevdb b normalize offset = .ok g)
    (hs0 : b.start0 ≤ b.end0) (hs1 : b.start1 ≤ b.end1) (hs2 : b.start2 ≤ b.end2) :
    g.writes.map Prod.snd = transformValues normalize offset b.values := by
  obtain ⟨-, -, -, hsz, -, -, hw, -, -⟩ := writevdb_ok b normalize offset g h
  rw [hw, List.map_snd_zip]
  exact le_of_eq (by
    rw [transformValues_length, hsz, computedSize_eq_dims b hs0 hs1 hs2,
      scatterCoords_length])

lemma writevdb_error_msgs (b : Block) (normalize : Bool) (offset : ℚ) (e : String)
    (h : writevdb b normalize offset = .error e) :
    e = "OpenVDB output only supports float grids"
      ∨ e = "OpenVDB output only supports 3D grids"
      ∨ e = "Empty grid cannot be used!"
      ∨ e = "Something wrong with the data count"
      ∨ b.originFetchErr = some e ∨ b.deltaFetchErr = some e := by
  unfold writevdb at h
  split at h
  next => injection h with h; exact Or.inl h.symm
  next =>
    split at h
    next => injection h with h; exact Or.inr (Or.inl h.symm)
    next =>
      split at h
      next => injection h with h; exact Or.inr (Or.inr (Or.inl h.symm))
      next =>
        split at h
        next => injection h with h; exact Or.inr (Or.inr (Or.inr (Or.inl h.symm)))
        next =>
          split at h
          next e' ho =>
            injection h with h
            exact Or.inr (Or.inr (Or.inr (Or.inr (Or.inl (h ▸ ho)))))
          next e' ho hd =>
            injection h with h
            exact Or.inr (Or.inr (Or.inr (Or.inr (Or.inr (h ▸ hd)))))
          next => exact Except.noConfusion h

lemma writevdbAll_ok (bs : List Block) (normalize : Bool) (offset : ℚ)
    (gs : List VDBGrid) (h : writevdbAll bs normalize offset = .ok gs) :
    gs.length = bs.length ∧ ∀ (m : Nat) (hm : m < bs.length) (hm' : m < gs.length),
      writevdb (bs.get ⟨m, hm⟩) normalize offset = .ok (gs.get ⟨m, hm'⟩) := by
  induction bs generalizing gs with
  | nil =>
    rw [writevdbAll] at h
    injection h with h
    subst h
    exact ⟨rfl, fun m hm => absurd hm (by simp)⟩
  | cons b bs ih =>
    rw [writevdbAll] at h
    cases hb : writevdb b normalize offset with
    | error e => rw [hb] at h; simp [Bind.bind, Except.bind] at h
    | ok g =>
      rw [hb] at h
      cases hall : writevdbAll bs normalize offset with
      | error e => rw [hall] at h; simp [Bind.bind, Except.bind] at h
      | ok gs' =>
        rw [hall] at h
        simp only [Bind.bind, Except.bind] at h
        injection h with h
        subst h
        obtain ⟨hlen, hidx⟩ := ih gs' hall
        refine ⟨by simp [hlen], ?_⟩
        intro m hm hm'
        cases m with
        | zero => simpa using hb
        | succ m => simpa using hidx m (by simpa using hm) (by simpa using hm')

/-- The grid-name sanitization rule stated by the spec.  In the source it
exists only as the commented-out block of main.cpp lines 236-243
(boost::replace_all of space, colon and equals by underscore); the active
code never calls `grid->setName`. -/
def sanitizedNameSpec (s : String) : String :=
  s.map fun c => if c = ' ' ∨ c = ':' ∨ c = '=' then '_' else c

/-- A collection of blocks destined for one output grid, as described by the
spec (§3); the source has no corresponding structure — it writes one grid
per dataset. -/
structure Collection where
  origin : ℚ × ℚ × ℚ
  delta : ℚ × ℚ × ℚ
  members : List String
  deriving DecidableEq, Repr

/-- The Consistency Predicate, following the spec wording (§4.2): equal
deltas, and the origin of the block differs from the collection origin by
an integer multiple of the delta on every axis (exact, since values are
modelled as ℚ). -/
def consistentSpec (c : Collection) (b : Block) : Prop :=
  c.delta = b.delta
    ∧ ((b.origin.1 - c.origin.1) / c.delta.1).den = 1
    ∧ ((b.origin.2.1 - c.origin.2.1) / c.delta.2.1).den = 1
    ∧ ((b.origin.2.2 - c.origin.2.2) / c.delta.2.2).den = 1

instance (c : Collection) (b : Block) : Decidable (consistentSpec c b) := by
  unfold consistentSpec
  infer_instance

/-- The Collection Accumulator, following the spec wording (§4.2): the
canonical origin becomes the componentwise minimum and the block joins the
membership. -/
def admitSpec (c : Collection) (b : Block) : Collection :=
  { origin := (min c.origin.1 b.origin.1, min c.origin.2.1 b.origin.2.1,
      min c.origin.2.2 b.origin.2.2)
    delta := c.delta
    members := c.members ++ [b.name] }

/-- One step of the Grouping Algorithm, following the spec wording (§4.3):
admit the block into the first consistent collection in scan order, or
append a fresh singleton collection. -/
def insertBlockSpec : List Collection → Block → List Collection
  | [], b => [{ origin := b.origin, delta := b.delta, members := [b.name] }]
  | c :: cs, b =>
      if consistentSpec c b then admitSpec c b :: cs else c :: insertBlockSpec cs b

/-- The Grouping Algorithm of the spec (§4.3): single pass in arrival order. -/
def groupBlocksSpec (bs : List Block) : List Collection :=
  bs.foldl insertBlockSpec []

/-- A 2×1×1 float block with values [10, 20] at zero selection offset (the
axis-permutation example of the spec). -/
def exBlockC1 : Block :=
  { name := "d", typeClass := .float, rank := 3
    start0 := 0, start1 := 0, start2 := 0
    end0 := 1, end1 := 0, end2 := 0
    values := [10, 20]
    originFetchErr := none, deltaFetchErr := none
    origin := (0, 0, 0), delta := (1, 1, 1) }

/-- A 3×1×1 float block with values [1, 3, 5] (the normalization example of
the spec). -/
def exBlockC2 : Block :=
  { name := "d", typeClass := .float, rank := 3
    start0 := 0, start1 := 0, start2 := 0
    end0 := 2, end1 := 0, end2 := 0
    values := [1, 3, 5]
    originFetchErr := none, deltaFetchErr := none
    origin := (0, 0, 0), delta := (1, 1, 1) }

/-- A 3×1×1 float block whose values are all equal (the degenerate
normalization example of the spec). -/
def exBlockC3 : Block :=
  { name := "d", typeClass := .float, rank := 3
    start0 := 0, start1 := 0, start2 := 0
    end0 := 2, end1 := 0, end2 := 0
    values := [4, 4, 4]
    originFetchErr := none, deltaFetchErr := none
    origin := (0, 0, 0), delta := (1, 1, 1) }

/-- A block whose element type is integer, not float. -/
def exBlockC4a : Block :=
  { name := "d", typeClass := .integer, rank := 3
    start0 := 0, start1 := 0, start2 := 0
    end0 := 0, end1 := 0, end2 := 0
    values := [1]
    originFetchErr := none, deltaFetchErr := none
    origin := (0, 0, 0), delta := (1, 1, 1) }

/-- A float block of rank 2. -/
def exBlockC4b : Block :=
  { name := "d", typeClass := .float, rank := 2
    start0 := 0, start1 := 0, start2 := 0
    end0 := 0, end1 := 0, end2 := 0
    values := [1]
    originFetchErr := none, deltaFetchErr := none
    origin := (0, 0, 0), delta := (1, 1, 1) }

/-- A rank-3 float block with an empty value buffer. -/
def exBlockC4c : Block :=
  { name := "d", typeClass := .float, rank := 3
    start0 := 0, start1 := 0, start2 := 0
    end0 := 0, end1 := 0, end2 := 0
    values := []
    originFetchErr := none, deltaFetchErr := none
    origin := (0, 0, 0), delta := (1, 1, 1) }

/-- A rank-3 float block whose buffer length (2) mismatches the 1×1×1
extent product. -/
def exBlockC4d : Block :=
  { name := "d", typeClass := .float, rank := 3
    start0 := 0, start1 := 0, start2 := 0
    end0 := 0, end1 := 0, end2 := 0
    values := [1, 2]
    originFetchErr := none, deltaFetchErr := none
    origin := (0, 0, 0), delta := (1, 1, 1) }

/-- A 2×1×1 float block with values [1, 2]. -/
def exBlockC5 : Block :=
  { name := "d", typeClass := .float, rank := 3
    start0 := 0, start1 := 0, start2 := 0
    end0 := 1, end1 := 0, end2 := 0
    values := [1, 2]
    originFetchErr := none, deltaFetchErr := none
    origin := (0, 0, 0), delta := (1, 1, 1) }

/-- A single-voxel float block with origin (2, 3, 4) and delta (1/2, 1, 2). -/
def exBlockC6 : Block :=
  { name := "d", typeClass := .float, rank := 3
    start0 := 0, start1 := 0, start2 := 0
    end0 := 0, end1 := 0, end2 := 0
    values := [1]
    originFetchErr := none, deltaFetchErr := none
    origin := (2, 3, 4), delta := (1/2, 1, 2) }

/-- A single-voxel float block whose dataset name contains a space, a colon
and an equals sign. -/
def exBlockC7 : Block :=
  { name := "a b:c=d", typeClass := .float, rank := 3
    start0 := 0, start1 := 0, start2 := 0
    end0 := 0, end1 := 0, end2 := 0
    values := [1]
    originFetchErr := none, deltaFetchErr := none
    origin := (0, 0, 0), delta := (1, 1, 1) }

/-- First of two lattice-consistent single-voxel blocks. -/
def exBlockC8a : Block :=
  { name := "d1", typeClass := .float, rank := 3
    start0 := 0, start1 := 0, start2 := 0
    end0 := 0, end1 := 0, end2 := 0
    values := [1]
    originFetchErr := none, deltaFetchErr := none
    origin := (0, 0, 0), delta := (1, 1, 1) }

/-- Second of two lattice-consistent single-voxel blocks (origin one delta
step away from the first). -/
def exBlockC8b : Block :=
  { name := "d2", typeClass := .float, rank := 3
    start0 := 0, start1 := 0, start2 := 0
    end0 := 0, end1 := 0, end2 := 0
    values := [2]
    originFetchErr := none, deltaFetchErr := none
    origin := (1, 0, 0), delta := (1, 1, 1) }

/-- A single-voxel float block with origin (−1, 0, 0): the negative-offset
example of the spec, measured against a collection origin (0, 0, 0). -/
def exBlockC9 : Block :=
  { name := "d", typeClass := .float, rank := 3
    start0 := 0, start1 := 0, start2 := 0
    end0 := 0, end1 := 0, end2 := 0
    values := [1]
    originFetchErr := none, deltaFetchErr := none
    origin := (-1, 0, 0), delta := (1, 1, 1) }

/-- An integer-typed block used to exhibit one of the four shape errors. -/
def exBlockC9w : Block :=
  { name := "d", typeClass := .integer, rank := 3
    start0 := 0, start1 := 0, start2 := 0
    end0 := 0, end1 := 0, end2 := 0
    values := [1]
    originFetchErr := none, deltaFetchErr := none
    origin := (0, 0, 0), delta := (1, 1, 1) }

/-- A 2×1×1 float block with values [7, 9]. -/
def exBlockC10 : Block :=
  { name := "d", typeClass := .float, rank := 3
    start0 := 0, start1 := 0, start2 := 0
    end0 := 1, end1 := 0, end2 := 0
    values := [7, 9]
    originFetchErr := none, deltaFetchErr := none
    origin := (0, 0, 0), delta := (1, 1, 1) }

/-- C1 counterexample: the claim predicts that the 2×1×1 block with values
[10, 20] at zero offset lands at grid coordinates (0,0,0) and (0,0,1)
(first/third axis swap).  The code performs no axis swap: it writes
value 20 at (1,0,0) and leaves (0,0,1) empty, so the predicted placement
is refuted. -/
theorem C1_counterexample :
    (writevdb exBlockC1 false 0).map (fun g => (gridAt g (0, 0, 0), gridAt g (0, 0, 1)))
      ≠ .ok (some 10, some 20) := by decide

/-- C1 (amended): for every block written into a grid, the value at native
index (x, y, z) (x in [0,dim0), y in [0,dim1), z in [0,dim2), z
fastest-varying in the buffer) is placed at grid coordinate
(start0 + x, start1 + y, start2 + z) — the axes are NOT swapped, and the
only translation is the dataset selection lower bound (zero after
`selectAll`), not a collection offset. -/
theorem C1_no_axis_swap (b : Block) (normalize : Bool) (offset : ℚ) (g : VDBGrid)
    (h : writevdb b normalize offset = .ok g)
    (hs0 : b.start0 ≤ b.end0) (hs1 : b.start1 ≤ b.end1) (hs2 : b.start2 ≤ b.end2)
    (x y z : Nat) (hx : x < dim0 b) (hy : y < dim1 b) (hz : z < dim2 b) :
    gridAt g (b.start0 + x, b.start1 + y, b.start2 + z)
      = (transformValues normalize offset b.values)[x * (dim1 b * dim2 b) + y * dim2 b + z]? :=
  gridAt_writevdb b normalize offset g h hs0 hs1 hs2 x y z hx hy hz

/-- C1 witness: on the 2×1×1 example block the native index (1,0,0) lands at
grid coordinate (1,0,0) with its value 20 unchanged. -/
theorem C1_no_axis_swap_witness :
    (writevdb exBlockC1 false 0).map (fun g => gridAt g (1, 0, 0)) = .ok (some 20) := by
  obtain ⟨g, hg⟩ : ∃ g, writevdb exBlockC1 false 0 = .ok g := ⟨_, rfl⟩
  have hx := C1_no_axis_swap exBlockC1 false 0 g hg (by decide) (by decide) (by decide)
    1 0 0 (by decide) (by decide) (by decide)
  have hc : ((exBlockC1.start0 + 1 : Nat), (exBlockC1.start1 + 0 : Nat),
      (exBlockC1.start2 + 0 : Nat)) = ((1 : Nat), (0 : Nat), (0 : Nat)) := by decide
  have hv : (transformValues false 0 exBlockC1.values)[1 * (dim1 exBlockC1 * dim2 exBlockC1)
      + 0 * dim2 exBlockC1 + 0]? = some 20 := by decide
  rw [hc, hv] at hx
  rw [hg]
  exact congrArg Except.ok hx

/-- C3: the source has no max == min guard in the normalization pass
(main.cpp lines 212-222).  Normalizing the all-equal block [4, 4, 4]
succeeds instead of raising an error: in IEEE arithmetic every value
becomes 0/0 = NaN and the grid is written silently; in this exact model
the division by zero yields 0, so the written values are [0, 0, 0] —
exactly the silent outcome the claim (and spec §4.5/§7) forbids. -/
theorem C3_degenerate_normalization_no_error :
    (writevdb exBlockC3 true 0).isOk = true
      ∧ (writevdb exBlockC3 true 0).map (fun g => g.writes.map Prod.snd)
          = .ok [0, 0, 0] := by
  refine ⟨by decide, ?_⟩
  norm_num [writevdb, exBlockC3, computedSize, transformValues, normalizeValues,
    stdMin, stdMax, scatterCoords, Except.map]
  rfl

/-- C2: when normalization is requested, `writevdb` computes the minimum and
maximum of the whole value buffer of the block and remaps every written
value to (v − min) / (max − min) + offset. -/
theorem C2_normalization_formula (b : Block) (offset : ℚ) (g : VDBGrid) (mn mx : ℚ)
    (h : writevdb b true offset = .ok g)
    (hs0 : b.start0 ≤ b.end0) (hs1 : b.start1 ≤ b.end1) (hs2 : b.start2 ≤ b.end2)
    (hmn : b.values.min? = some mn) (hmx : b.values.max? = some mx) :
    g.writes.map Prod.snd = b.values.map (fun v => (v - mn) / (mx - mn) + offset) := by
  rw [writes_map_snd b true offset g h hs0 hs1 hs2,
    show transformValues true offset b.values = normalizeValues offset b.values from by
      simp [transformValues]]
  exact normalizeValues_eq offset b.values mn mx hmn hmx

/-- C2 witness: block values [1, 3, 5] normalize to [0, 1/2, 1] with offset 0
and to [1/10, 3/5, 11/10] with offset 1/10, as the spec example states. -/
theorem C2_normalization_formula_witness :
    (writevdb exBlockC2 true 0).map (fun g => g.writes.map Prod.snd) = .ok [0, 1/2, 1]
      ∧ (writevdb exBlockC2 true (1/10)).map (fun g => g.writes.map Prod.snd)
          = .ok [1/10, 3/5, 11/10] := by
  constructor
  · obtain ⟨g, hg⟩ : ∃ g, writevdb exBlockC2 true 0 = .ok g := ⟨_, rfl⟩
    have hth := C2_normalization_formula exBlockC2 0 g 1 5 hg (by decide) (by decide)
      (by decide) (by norm_num [exBlockC2, List.min?]) (by norm_num [exBlockC2, List.max?])
    rw [hg]
    refine congrArg Except.ok ?_
    simp only [hth]
    norm_num [exBlockC2]
  · obtain ⟨g, hg⟩ : ∃ g, writevdb exBlockC2 true (1/10) = .ok g := ⟨_, rfl⟩
    have hth := C2_normalization_formula exBlockC2 (1/10) g 1 5 hg (by decide) (by decide)
      (by decide) (by norm_num [exBlockC2, List.min?]) (by norm_num [exBlockC2, List.max?])
    rw [hg]
    refine congrArg Except.ok ?_
    simp only [hth]
    norm_num [exBlockC2]

/-- C4: `writevdb` fails with the corresponding fatal error — producing no
grid, hence before any placement work — when the element type is not float,
the rank is not 3, the element count is zero, or the element count
mismatches the product of the three extents; the checks are tried in that
order. -/
theorem C4_shape_validation (b : Block) (normalize : Bool) (offset : ℚ) :
    (b.typeClass ≠ H5TClass.float →
        writevdb b normalize offset = .error "OpenVDB output only supports float grids")
    ∧ (b.typeClass = H5TClass.float → b.rank ≠ 3 →
        writevdb b normalize offset = .error "OpenVDB output only supports 3D grids")
    ∧ (b.typeClass = H5TClass.float → b.rank = 3 → b.values.length = 0 →
        writevdb b normalize offset = .error "Empty grid cannot be used!")
    ∧ (b.typeClass = H5TClass.float → b.rank = 3 → b.values.length ≠ 0 →
        b.values.length ≠ computedSize b →
        writevdb b normalize offset = .error "Something wrong with the data count") := by
  refine ⟨fun h1 => ?_, fun h1 h2 => ?_, fun h1 h2 h3 => ?_, fun h1 h2 h3 h4 => ?_⟩
  · simp [writevdb, h1]
  · simp [writevdb, h1, h2]
  · simp [writevdb, h1, h2, h3]
  · simp [writevdb, h1, h2, h3, h4]

/-- C4 witness: each of the four rejections exhibited on a concrete block:
integer element type, rank 2, empty buffer, and a 2-element buffer declared
as a 1×1×1 grid. -/
theorem C4_shape_validation_witness :
    writevdb exBlockC4a false 0 = .error "OpenVDB output only supports float grids"
      ∧ writevdb exBlockC4b false 0 = .error "OpenVDB output only supports 3D grids"
      ∧ writevdb exBlockC4c false 0 = .error "Empty grid cannot be used!"
      ∧ writevdb exBlockC4d false 0 = .error "Something wrong with the data count" :=
  ⟨(C4_shape_validation exBlockC4a false 0).1 (by decide),
    (C4_shape_validation exBlockC4b false 0).2.1 rfl (by decide),
    (C4_shape_validation exBlockC4c false 0).2.2.1 rfl rfl rfl,
    (C4_shape_validation exBlockC4d false 0).2.2.2 rfl rfl (by decide) (by decide)⟩

/-- C5: with normalization off and a nonzero offset, every written value is
the raw value plus the offset; with normalization off and offset zero, the
buffer is written untouched; with normalization on, the written values are
exactly the normalization remap — the additive pass is never applied on
top of it (applying it would change the output whenever the offset is
nonzero). -/
theorem C5_value_modes (b : Block) (offset : ℚ) (g gN : VDBGrid)
    (hs0 : b.start0 ≤ b.end0) (hs1 : b.start1 ≤ b.end1) (hs2 : b.start2 ≤ b.end2)
    (h : writevdb b false offset = .ok g)
    (hN : writevdb b true offset = .ok gN) :
    (offset ≠ 0 → g.writes.map Prod.snd = b.values.map (fun v => v + offset))
    ∧ (offset = 0 → g.writes.map Prod.snd = b.values)
    ∧ gN.writes.map Prod.snd = normalizeValues offset b.values
    ∧ (offset ≠ 0 →
        (gN.writes.map Prod.snd).map (fun v => v + offset) ≠ gN.writes.map Prod.snd) := by
  have hg := writes_map_snd b false offset g h hs0 hs1 hs2
  have hgN := writes_map_snd b true offset gN hN hs0 hs1 hs2
  have hnorm : transformValues true offset b.values = normalizeValues offset b.values := by
    simp [transformValues]
  refine ⟨fun ho => ?_, fun ho => ?_, by rw [hgN, hnorm], fun ho hEq => ?_⟩
  · rw [hg]
    simp [transformValues, ho]
  · rw [hg]
    simp [transformValues, ho]
  · have hvne : b.values ≠ [] := by
      have hlen := (writevdb_ok b true offset gN hN).2.2.1
      intro hnil
      rw [hnil] at hlen
      exact hlen rfl
    have hne : gN.writes.map Prod.snd ≠ [] := by
      rw [hgN, hnorm]
      unfold normalizeValues
      simpa using hvne
    obtain ⟨v, vs, hvvs⟩ := List.exists_cons_of_ne_nil hne
    rw [hvvs, List.map_cons] at hEq
    injection hEq with h1 _
    exact ho (by linarith)

/-- C5 witness: block values [1, 2] with offset 1/2: the additive mode yields
[3/2, 5/2], the normalization mode yields [1/2, 3/2]. -/
theorem C5_value_modes_witness :
    (writevdb exBlockC5 false (1/2)).map (fun g => g.writes.map Prod.snd) = .ok [3/2, 5/2]
      ∧ (writevdb exBlockC5 true (1/2)).map (fun g => g.writes.map Prod.snd)
          = .ok [1/2, 3/2] := by
  obtain ⟨g, hg⟩ : ∃ g, writevdb exBlockC5 false (1/2) = .ok g := ⟨_, rfl⟩
  obtain ⟨gN, hgN⟩ : ∃ g, writevdb exBlockC5 true (1/2) = .ok g := ⟨_, rfl⟩
  have hth := C5_value_modes exBlockC5 (1/2) g gN (by decide) (by decide) (by decide) hg hgN
  constructor
  · rw [hg]
    refine congrArg Except.ok ?_
    simp only [hth.1 (by norm_num)]
    norm_num [exBlockC5]
  · rw [hgN]
    refine congrArg Except.ok ?_
    simp only [hth.2.2.1]
    norm_num [normalizeValues, exBlockC5, stdMin, stdMax]

/-- C6: every grid produced by `writevdb` carries a linear transform whose
upper-left 3×3 part is the diagonal of the `delta` attribute (off-diagonal
rotation/shear entries all zero), whose translation row is the `origin`
attribute, and whose last column is (0,0,0,1).  Since each grid holds a
single dataset (a single-block collection), `delta` and `origin` of the
block are the collection values. -/
theorem C6_transform_diagonal (b : Block) (normalize : Bool) (offset : ℚ) (g : VDBGrid)
    (h : writevdb b normalize offset = .ok g) :
    (g.transform.m00 = b.delta.1 ∧ g.transform.m11 = b.delta.2.1
      ∧ g.transform.m22 = b.delta.2.2 ∧ g.transform.m33 = 1)
    ∧ (g.transform.m30 = b.origin.1 ∧ g.transform.m31 = b.origin.2.1
      ∧ g.transform.m32 = b.origin.2.2)
    ∧ (g.transform.m01 = 0 ∧ g.transform.m02 = 0 ∧ g.transform.m03 = 0
      ∧ g.transform.m10 = 0 ∧ g.transform.m12 = 0 ∧ g.transform.m13 = 0
      ∧ g.transform.m20 = 0 ∧ g.transform.m21 = 0 ∧ g.transform.m23 = 0) := by
  obtain ⟨-, -, -, -, -, htr, -, -, -⟩ := writevdb_ok b normalize offset g h
  rw [htr]
  exact ⟨⟨rfl, rfl, rfl, rfl⟩, ⟨rfl, rfl, rfl⟩,
    rfl, rfl, rfl, rfl, rfl, rfl, rfl, rfl, rfl⟩

/-- C6 witness: the block with delta (1/2, 1, 2) and origin (2, 3, 4) gets
scale diagonal (1/2, 1, 2), translation (2, 3, 4), and zero shear. -/
theorem C6_transform_diagonal_witness :
    (writevdb exBlockC6 false 0).map (fun g =>
        (g.transform.m00, g.transform.m11, g.transform.m22,
          g.transform.m30, g.transform.m31, g.transform.m32,
          g.transform.m01, g.transform.m33))
      = .ok (1/2, 1, 2, 2, 3, 4, 0, 1) := by
  obtain ⟨g, hg⟩ : ∃ g, writevdb exBlockC6 false 0 = .ok g := ⟨_, rfl⟩
  have hth := C6_transform_diagonal exBlockC6 false 0 g hg
  rw [hg]
  refine congrArg Except.ok ?_
  simp only [hth.1.1, hth.1.2.1, hth.1.2.2.1, hth.1.2.2.2, hth.2.1.1, hth.2.1.2.1,
    hth.2.1.2.2, hth.2.2.1]
  rfl

/-- C7 counterexample: the dataset name of the example block contains a
space, a colon and an equals sign, but the produced grid carries no name at
all (the sanitization exists only in commented-out source), refuting the
claim that the grid name is the sanitized dataset name. -/
theorem C7_counterexample :
    (writevdb exBlockC7 false 0).map (fun g => g.name)
      ≠ .ok (some (sanitizedNameSpec exBlockC7.name)) := by
  obtain ⟨g, hg⟩ : ∃ g, writevdb exBlockC7 false 0 = .ok g := ⟨_, rfl⟩
  have hn : g.name = none := (writevdb_ok exBlockC7 false 0 g hg).2.2.2.2.1
  rw [hg]
  intro hEq
  rw [show Except.map (fun g => g.name) (Except.ok g) = Except.ok g.name from rfl,
    hn] at hEq
  injection hEq with hEq
  exact Option.noConfusion hEq

/-- C7 (amended): the code never sets a grid name: `grid->setName` is called
nowhere (the sanitization block of main.cpp lines 236-243 is commented
out), so every successfully produced grid has no display name. -/
theorem C7_name_never_set (b : Block) (normalize : Bool) (offset : ℚ) (g : VDBGrid)
    (h : writevdb b normalize offset = .ok g) : g.name = none :=
  (writevdb_ok b normalize offset g h).2.2.2.2.1

/-- C7 witness: the example block converts successfully and its grid has no
name. -/
theorem C7_name_never_set_witness :
    (writevdb exBlockC7 false 0).map (fun g => g.name) = .ok none := by
  obtain ⟨g, hg⟩ : ∃ g, writevdb exBlockC7 false 0 = .ok g := ⟨_, rfl⟩
  rw [hg]
  exact congrArg Except.ok (C7_name_never_set exBlockC7 false 0 g hg)

/-- C8 counterexample: two lattice-consistent blocks (equal deltas, origins
one delta step apart) would form a single collection under the first-match
grouping described by the claim, but the code performs no grouping: the
`--writevdb_all` loop produces one grid per dataset, here two grids, not
one. -/
theorem C8_counterexample :
    (writevdbAll [exBlockC8a, exBlockC8b] false 0).map List.length
      ≠ .ok (groupBlocksSpec [exBlockC8a, exBlockC8b]).length := by
  have hgrp : groupBlocksSpec [exBlockC8a, exBlockC8b]
      = [{ origin := (0, 0, 0), delta := (1, 1, 1), members := ["d1", "d2"] }] := by
    norm_num [groupBlocksSpec, insertBlockSpec, consistentSpec, admitSpec,
      exBlockC8a, exBlockC8b]
  rw [hgrp]
  decide

/-- C8 (amended): the code performs no grouping at all: every dataset
unconditionally yields its own grid (written to its own file), so the
partition of datasets into grids is the partition into singletons —
trivially disjoint and covering, with the grid at position m coming from
the dataset at position m. -/
theorem C8_one_grid_per_dataset (bs : List Block) (normalize : Bool) (offset : ℚ)
    (gs : List VDBGrid) (h : writevdbAll bs normalize offset = .ok gs) :
    gs.length = bs.length ∧ ∀ (m : Nat) (hm : m < bs.length) (hm' : m < gs.length),
      writevdb (bs.get ⟨m, hm⟩) normalize offset = .ok (gs.get ⟨m, hm'⟩) :=
  writevdbAll_ok bs normalize offset gs h

/-- C8 witness: converting the two example datasets yields exactly two
grids. -/
theorem C8_one_grid_per_dataset_witness :
    (writevdbAll [exBlockC8a, exBlockC8b] false 0).map List.length = .ok 2 := by
  obtain ⟨gs, hgs⟩ : ∃ gs, writevdbAll [exBlockC8a, exBlockC8b] false 0 = .ok gs :=
    ⟨_, rfl⟩
  have hth := C8_one_grid_per_dataset [exBlockC8a, exBlockC8b] false 0 gs hgs
  rw [hgs]
  exact congrArg Except.ok hth.1

/-- C9 counterexample: the block with origin (−1, 0, 0) — the spec example
of a negative placement offset against a collection origin (0, 0, 0) — is
converted without any error: the code computes no origin-based placement
offset and has no negativity check. -/
theorem C9_counterexample : (writevdb exBlockC9 false 0).isOk = true := by decide

/-- C9 (amended): `writevdb` computes no integer placement offset from
origins and raises no consistency error.  Every failure is one of the four
input-shape errors or a propagated `origin`/`delta` attribute-fetch error,
and whenever the shape checks pass and both attribute fetches succeed the
conversion succeeds — regardless of the fetched values, so a negative
origin such as (−1, 0, 0) is never rejected: origins enter only the grid
transform translation, and all voxel coordinates come from the non-negative
dataset selection bounds. -/
theorem C9_no_consistency_error (b : Block) (normalize : Bool) (offset : ℚ) :
    (∀ e, writevdb b normalize offset = .error e →
        e = "OpenVDB output only supports float grids"
          ∨ e = "OpenVDB output only supports 3D grids"
          ∨ e = "Empty grid cannot be used!"
          ∨ e = "Something wrong with the data count"
          ∨ b.originFetchErr = some e ∨ b.deltaFetchErr = some e)
    ∧ (b.typeClass = H5TClass.float → b.rank = 3 → b.values.length ≠ 0 →
        b.values.length = computedSize b → b.originFetchErr = none →
        b.deltaFetchErr = none →
        (writevdb b normalize offset).isOk = true) := by
  refine ⟨fun e h => writevdb_error_msgs b normalize offset e h,
    fun h1 h2 h3 h4 h5 h6 => ?_⟩
  have h7 : computedSize b ≠ 0 := h4 ▸ h3
  simp [writevdb, h1, h2, h3, h4, h5, h6, h7, Except.isOk, Except.toBool]

/-- C9 witness: the integer-typed block fails with one of the shape errors
(not a consistency error), and the shape-valid block with origin (−1, 0, 0)
converts successfully. -/
theorem C9_no_consistency_error_witness :
    (writevdb exBlockC9w false 0 = .error "OpenVDB output only supports float grids"
      ∧ ("OpenVDB output only supports float grids"
            = "OpenVDB output only supports float grids"
          ∨ "OpenVDB output only supports float grids"
            = "OpenVDB output only supports 3D grids"
          ∨ "OpenVDB output only supports float grids" = "Empty grid cannot be used!"
          ∨ "OpenVDB output only supports float grids"
            = "Something wrong with the data count"
          ∨ exBlockC9w.originFetchErr = some "OpenVDB output only supports float grids"
          ∨ exBlockC9w.deltaFetchErr = some "OpenVDB output only supports float grids"))
      ∧ (writevdb exBlockC9 false 0).isOk = true :=
  ⟨⟨by decide, (C9_no_consistency_error exBlockC9w false 0).1 _ (by decide)⟩,
    (C9_no_consistency_error exBlockC9 false 0).2 rfl rfl (by decide) (by decide)
      rfl rfl⟩

/-- C10: with normalization off and offset 0 the value transform is the
identity: the sequence of written values is exactly the raw buffer, and the
voxel at grid coordinate (start0 + x, start1 + y, start2 + z) holds raw
buffer element x·dim1·dim2 + y·dim2 + z, unchanged. -/
theorem C10_identity_values (b : Block) (g : VDBGrid)
    (h : writevdb b false 0 = .ok g)
    (hs0 : b.start0 ≤ b.end0) (hs1 : b.start1 ≤ b.end1) (hs2 : b.start2 ≤ b.end2) :
    g.writes.map Prod.snd = b.values
    ∧ ∀ (x y z : Nat), x < dim0 b → y < dim1 b → z < dim2 b →
        gridAt g (b.start0 + x, b.start1 + y, b.start2 + z)
          = b.values[x * (dim1 b * dim2 b) + y * dim2 b + z]? := by
  have hid : transformValues false 0 b.values = b.values := by
    simp [transformValues]
  constructor
  · rw [writes_map_snd b false 0 g h hs0 hs1 hs2, hid]
  · intro x y z hx hy hz
    have hG := gridAt_writevdb b false 0 g h hs0 hs1 hs2 x y z hx hy hz
    rwa [hid] at hG

/-- C10 witness: the 2×1×1 block [7, 9] is written bit-for-bit: the write
sequence is [7, 9] and the voxel at (1,0,0) holds 9. -/
theorem C10_identity_values_witness :
    (writevdb exBlockC10 false 0).map (fun g => (g.writes.map Prod.snd, gridAt g (1, 0, 0)))
      = .ok ([7, 9], some 9) := by
  obtain ⟨g, hg⟩ : ∃ g, writevdb exBlockC10 false 0 = .ok g := ⟨_, rfl⟩
  have hth := C10_identity_values exBlockC10 g hg (by decide) (by decide) (by decide)
  have h2 := hth.2 1 0 0 (by decide) (by decide) (by decide)
  have hc : ((exBlockC10.start0 + 1 : Nat), (exBlockC10.start1 + 0 : Nat),
      (exBlockC10.start2 + 0 : Nat)) = ((1 : Nat), (0 : Nat), (0 : Nat)) := by decide
  rw [hc] at h2
  have hv : exBlockC10.values[1 * (dim1 exBlockC10 * dim2 exBlockC10)
      + 0 * dim2 exBlockC10 + 0]? = some 9 := by decide
  rw [hv] at h2
  rw [hg]
  refine congrArg Except.ok ?_
  simp only [hth.1, h2]
  rfl
